import Mathlib

/-!
Verification of the transport core of the planet client library
(`planet/models.py` and collaborators): the `Paged` asynchronous iterator
over cursor-linked pages, the download filename resolution, the `Response`
wrapper, and (modelled from the specification where the source module is
absent) the retry backoff and status classification of the session.

The Python code is embedded shallowly: JSON pages become a structure with
an item list and an optional next cursor; the async generator
`Paged._get_pages` becomes an explicit resumption step over its suspension
points; `Paged.__anext__` becomes a pure transition on the iterator state.
-/

namespace Planet

/-- A page of a paged resource, as returned by `response.json()`:
`page[ITEMS_KEY]` is the item array, and `page[LINKS_KEY][NEXT_KEY]` is the
optional next cursor (`_next_link` maps a missing key to Python `False`,
embedded here as `none`). -/
structure Page (α : Type) where
  items : List α
  next : Option String
  deriving DecidableEq, Repr

/-- `Paged._next_link(page)`: `page['_links']['next']`, with a `KeyError`
(no links or no next entry) mapped to a falsy value, i.e. `none`. -/
def next_link {α : Type} (page : Page α) : Option String :=
  page.next

/-- Resumption state of the async generator `Paged._get_pages`:
`start page0` is the freshly created generator (the body has not run; the
initial page is `response.json()` of the response given to `__init__`);
`suspended u` is the generator parked at a `yield`, with `u` the pending
`next_url` that the `while` loop will examine on resumption. -/
inductive GenState (α : Type) where
  | start (page0 : Page α)
  | suspended (next_url : Option String)
  deriving DecidableEq, Repr

/-- Outcome of resuming `Paged._get_pages` once. -/
inductive GenOut (α : Type) where
  | yielded (page : Page α) (s : GenState α)
  | stopIteration
  | pagingError (url : String)
  deriving DecidableEq, Repr

/-- One resumption of the async generator `Paged._get_pages`.  `fetch u`
embeds `(await self._request_fcn(url=u, method='GET')).json()`.
From `start`, the body yields `response.json()` and parks with
`next_url = self._next_link(page)`.  From a `yield` inside the loop with a
pending url `u`, the loop fetches the page at `u`, computes the new
`next_url` from it, raises `PagingError` when it equals the url just used
(`next_url == prev_url`), and otherwise yields the page; a falsy pending
url ends the loop and the generator raises `StopAsyncIteration`. -/
def getPagesStep {α : Type} (fetch : String → Page α) :
    GenState α → GenOut α
  | .start page0 => .yielded page0 (.suspended (next_link page0))
  | .suspended none => .stopIteration
  | .suspended (some u) =>
    let page := fetch u
    let nxt := next_link page
    if nxt = some u then
      .pagingError u
    else
      .yielded page (.suspended nxt)

/-- Mutable state of a `Paged` iterator: the buffer `self._items` of
not-yet-yielded items of the current page, the count `self.i` of items
yielded so far, the optional maximum `self.limit` (0 = no maximum), and
the resumption state of the `self._pages` generator. -/
structure PagedState (α : Type) where
  items : List α
  i : Nat
  limit : Nat
  gen : GenState α
  deriving DecidableEq, Repr

/-- `Paged.__init__(response, request_fcn, limit)`: the item buffer starts
empty, no item has been yielded, and the pages generator is created (but
not yet run) on the initial response's json. -/
def Paged.init {α : Type} (page0 : Page α) (limit : Nat) : PagedState α :=
  { items := [], i := 0, limit := limit, gen := .start page0 }

/-- Outcome of one `Paged.__anext__` call: an item together with the
updated iterator state, `StopAsyncIteration`, or a `PagingError`. -/
inductive NextResult (α : Type) where
  | item (x : α) (s : PagedState α)
  | stopIter (s : PagedState α)
  | pagingErr (url : String)
  deriving DecidableEq, Repr

/-- `Paged.__anext__`: stop if the limit (when non-zero) is reached; pop
the first buffered item; on an empty buffer, resume `_get_pages`, replace
the buffer with the new page's item array and retry the pop, an empty
array raising `StopAsyncIteration`.  `StopAsyncIteration` and
`PagingError` from the generator propagate. -/
def Paged.anext {α : Type} (fetch : String → Page α) (s : PagedState α) :
    NextResult α :=
  if s.limit ≠ 0 ∧ s.i ≥ s.limit then
    .stopIter s
  else
    match s.items with
    | x :: rest => .item x { s with items := rest, i := s.i + 1 }
    | [] =>
      match getPagesStep fetch s.gen with
      | .stopIteration => .stopIter s
      | .pagingError u => .pagingErr u
      | .yielded page g =>
        match page.items with
        | x :: rest => .item x { s with items := rest, i := s.i + 1, gen := g }
        | [] => .stopIter { s with items := [], gen := g }

/-- How a bounded traversal of the iterator ended. -/
inductive RunEnd where
  | exhausted
  | cycleError (url : String)
  | outOfFuel
  deriving DecidableEq, Repr

/-- Drive `Paged.__anext__` until it stops (as a `for`-loop over the
iterator would), collecting the yielded items in order; `fuel` bounds the
number of calls so the traversal is total. -/
def Paged.run {α : Type} (fetch : String → Page α) :
    Nat → PagedState α → List α × RunEnd
  | 0, _ => ([], .outOfFuel)
  | Nat.succ fuel, s =>
    match Paged.anext fetch s with
    | .stopIter _ => ([], .exhausted)
    | .pagingErr u => ([], .cycleError u)
    | .item x s1 =>
      let r := Paged.run fetch fuel s1
      (x :: r.1, r.2)

/-- C1: over the three pages `{items:[a,b], next:U1}`, `{items:[c],
next:U2}`, `{items:[d], next absent}`, the Paged iterator yields exactly
`[a,b,c,d]` — page order, then intra-page array order, no repetition —
and then terminates normally. -/
theorem paged_three_pages_yields_in_order {α : Type} (a b c d : α)
    (u1 u2 : String) (hne : u1 ≠ u2) (fetch : String → Page α)
    (h1 : fetch u1 = { items := [c], next := some u2 })
    (h2 : fetch u2 = { items := [d], next := none }) :
    Paged.run fetch 5 (Paged.init { items := [a, b], next := some u1 } 0) =
      ([a, b, c, d], .exhausted) := by
  have hne2 : ¬ (some u2 = some u1) := by
    simp only [Option.some.injEq]
    exact fun h => hne h.symm
  simp [Paged.run, Paged.anext, Paged.init, getPagesStep, next_link, h1, h2,
    hne2]

/-- Witness for C1 at concrete pages. -/
theorem paged_three_pages_yields_in_order_witness :
    Paged.run
        (fun u => if u = "u1" then { items := [2], next := some "u2" }
                  else { items := [3], next := none })
        5 (Paged.init { items := [0, 1], next := some "u1" } 0) =
      ([0, 1, 2, 3], .exhausted) :=
  paged_three_pages_yields_in_order 0 1 2 3 "u1" "u2" (by decide) _
    (by simp) (by simp)

/-- `__anext__` produces an item only when the limit has not been hit
(`limit == 0` or `i < limit`), and then increments `i` by exactly one,
leaving `limit` unchanged. -/
theorem anext_item_inv {α : Type} {fetch : String → Page α}
    {s s1 : PagedState α} {x : α} (h : Paged.anext fetch s = .item x s1) :
    s1.limit = s.limit ∧ s1.i = s.i + 1 ∧
      (s.limit = 0 ∨ s.i < s.limit) := by
  unfold Paged.anext at h
  by_cases hg : s.limit ≠ 0 ∧ s.i ≥ s.limit
  · rw [if_pos hg] at h
    cases h
  · rw [if_neg hg] at h
    push_neg at hg
    have hcase : s.limit = 0 ∨ s.i < s.limit := by
      by_cases hz : s.limit = 0
      · exact Or.inl hz
      · exact Or.inr (hg hz)
    split at h
    · cases h
      exact ⟨rfl, rfl, hcase⟩
    · split at h
      · cases h
      · cases h
      · split at h
        · cases h
          exact ⟨rfl, rfl, hcase⟩
        · cases h

/-- When a non-zero limit is configured, a bounded traversal from state
`s` yields at most `limit - i` further items, whatever the fuel. -/
theorem run_length_le {α : Type} (fetch : String → Page α) :
    ∀ (fuel : Nat) (s : PagedState α), s.limit ≠ 0 →
      (Paged.run fetch fuel s).1.length ≤ s.limit - s.i
  | 0, _, _ => by simp [Paged.run]
  | Nat.succ fuel, s, hl => by
    rw [Paged.run]
    rcases h : Paged.anext fetch s with ⟨x, s1⟩ | s1 | u
    · obtain ⟨hlim, hi, hcase⟩ := anext_item_inv h
      have hrec := run_length_le fetch fuel s1 (hlim ▸ hl)
      simp only [List.length_cons]
      omega
    · simp
    · simp

/-- C3: with a positive limit `n`, at most `n` items are ever yielded
from a fresh iterator, however long it is driven; and once `n` items have
been yielded (`i ≥ limit`), every further `__anext__` call stops
iteration at once, with no page fetch (the outcome is the same for every
fetch function). -/
theorem paged_limit_bounds {α : Type} (fetch : String → Page α) (n : Nat)
    (hn : 0 < n) (page0 : Page α) (fuel : Nat) (s : PagedState α)
    (hs : s.limit = n) (hi : n ≤ s.i) :
    (Paged.run fetch fuel (Paged.init page0 n)).1.length ≤ n ∧
      ∀ fetch2 : String → Page α, Paged.anext fetch2 s = .stopIter s := by
  constructor
  · have := run_length_le fetch fuel (Paged.init page0 n)
      (by simp [Paged.init]; omega)
    simpa [Paged.init] using this
  · intro fetch2
    have hguard : s.limit ≠ 0 ∧ s.i ≥ s.limit := by omega
    simp [Paged.anext, hguard]

/-- Witness for C3 at limit 1 with a two-item first page. -/
theorem paged_limit_bounds_witness :
    (Paged.run (α := Nat) (fun _ => { items := [8], next := some "w" }) 9
        (Paged.init { items := [4, 5], next := some "w" } 1)).1.length ≤ 1 ∧
      ∀ fetch2 : String → Page Nat,
        Paged.anext fetch2
            { items := [5], i := 1, limit := 1,
              gen := .suspended (some "w") } =
          .stopIter
            { items := [5], i := 1, limit := 1,
              gen := .suspended (some "w") } := by
  exact paged_limit_bounds _ 1 (by decide) _ 9 _ rfl (by decide)

/-- C2: when the next cursor extracted from the page fetched at url `u`
is again `u`, `__anext__` (with its buffer empty and the generator parked
at pending url `u`) surfaces a `PagingError` for `u` instead of fetching
the same page again. -/
theorem paged_cycle_raises {α : Type} (fetch : String → Page α) (u : String)
    (hcycle : next_link (fetch u) = some u) (s : PagedState α)
    (hbuf : s.items = []) (hlimit : s.limit = 0)
    (hgen : s.gen = .suspended (some u)) :
    Paged.anext fetch s = .pagingErr u := by
  simp [Paged.anext, hbuf, hlimit, hgen, getPagesStep, hcycle]

/-- Witness for C2: a server that answers url "loop" with a page whose
next cursor is again "loop". -/
theorem paged_cycle_raises_witness :
    Paged.anext (α := Nat) (fun _ => { items := [7], next := some "loop" })
        { items := [], i := 2, limit := 0,
          gen := .suspended (some "loop") } =
      .pagingErr "loop" :=
  paged_cycle_raises _ "loop" (by simp [next_link]) _ rfl rfl rfl

/-- C7: a page without a nested next link ends pagination: with the
generator parked on a falsy pending url, the iterator yields the items
still buffered from the current page and then terminates normally, with
no further fetch (the outcome does not depend on `fetch` at all). -/
theorem paged_no_next_drains_then_stops {α : Type}
    (fetch : String → Page α) (s : PagedState α) (hlimit : s.limit = 0)
    (hgen : s.gen = .suspended none) :
    Paged.run fetch (s.items.length + 1) s = (s.items, .exhausted) := by
  obtain ⟨items, i, limit, gen⟩ := s
  simp only at hlimit hgen
  subst hlimit hgen
  induction items generalizing i with
  | nil => simp [Paged.run, Paged.anext, getPagesStep]
  | cons x rest ih =>
    simp only [List.length_cons]
    rw [Paged.run]
    simp only [Paged.anext, ne_eq, not_true_eq_false, false_and, if_neg,
      not_false_eq_true]
    exact congrArg (fun r => (x :: r.1, r.2)) (ih (i + 1))

/-- Witness for C7: two buffered items, generator already past the last
page. -/
theorem paged_no_next_drains_then_stops_witness :
    Paged.run (α := Nat) (fun _ => { items := [9], next := none }) 3
        { items := [4, 5], i := 2, limit := 0, gen := .suspended none } =
      ([4, 5], .exhausted) := by
  exact paged_no_next_drains_then_stops _
    { items := [4, 5], i := 2, limit := 0, gen := .suspended none } rfl rfl

/-- C8: with an empty buffer and the generator parked at pending url `u`,
if the page at `u` has an empty item array then `__anext__` raises
`StopAsyncIteration` at once — even though that page carries a next
cursor `v` to further pages — and a single `__anext__` call consults the
server at no url other than the pending one (two fetch functions that
agree at `u` produce the same outcome). -/
theorem paged_empty_page_stops {α : Type} (fetch : String → Page α)
    (u v : String) (s : PagedState α) (hbuf : s.items = [])
    (hlimit : s.limit = 0) (hgen : s.gen = .suspended (some u))
    (hempty : (fetch u).items = []) (hnext : next_link (fetch u) = some v)
    (hvu : v ≠ u) :
    Paged.anext fetch s =
        .stopIter { s with items := [], gen := .suspended (some v) } ∧
      ∀ fetch2 : String → Page α, fetch2 u = fetch u →
        Paged.anext fetch2 s = Paged.anext fetch s := by
  have hne : ¬ (some v = some u) := by
    simp only [Option.some.injEq]
    exact hvu
  constructor
  · simp [Paged.anext, hbuf, hlimit, hgen, getPagesStep, hempty, hnext, hne]
  · intro fetch2 hagree
    simp [Paged.anext, hbuf, hlimit, hgen, getPagesStep, hagree]

/-- Witness for C8: the page at "p2" is empty but points on to "p3". -/
theorem paged_empty_page_stops_witness :
    Paged.anext (α := Nat)
        (fun u => if u = "p2" then { items := [], next := some "p3" }
                  else { items := [1], next := none })
        { items := [], i := 2, limit := 0, gen := .suspended (some "p2") } =
      .stopIter { items := [], i := 2, limit := 0,
                    gen := .suspended (some "p3") } :=
  (paged_empty_page_stops _ "p2" "p3" _ rfl rfl rfl (by simp) (by simp [next_link])
    (by decide)).1

/-- The subset of httpx response headers the embedded code reads.  httpx
header lookup is case-insensitive, so `headers.get('content-disposition')`
and `headers["Content-Length"]` are embedded as optional fields holding
the header value when the header is present. -/
structure Headers where
  contentDisposition : Option String
  contentLength : Option String
  contentType : Option String
  deriving DecidableEq, Repr

/-- The fields of an `httpx.Response` the embedded code reads. -/
structure HttpResponse where
  headers : Headers
  url : String
  deriving DecidableEq, Repr

/-- `models.Response`: wrapper around one received HTTP reply, keeping the
underlying `self._http_response`. -/
structure Response where
  http_response : HttpResponse
  deriving DecidableEq, Repr

/-- The capture group of the regex `filename="?([^"]+)"?` when anchored
right after a matched `filename=` literal: an optional opening quote, then
a greedy non-empty run of non-quote characters (the capture), then an
optional closing quote.  When the optional quote is consumed but no
non-quote character follows, the engine backtracks to matching the quote
position itself against `[^"]+`, which fails as well, so both arms reduce
to the same computation on their remainder. -/
def captureFilename : List Char → Option (List Char)
  | '"' :: rest =>
    let body := rest.takeWhile (fun c => c ≠ '"')
    if body = [] then none else some body
  | rest =>
    let body := rest.takeWhile (fun c => c ≠ '"')
    if body = [] then none else some body

/-- `re.search('filename="?([^"]+)"?', cd)`: scan left to right for the
first position where the pattern matches, returning its capture group.
The literal `filename=` cannot overlap itself, so a failed capture resumes
the scan one character further on. -/
def searchFilename : List Char → Option (List Char)
  | [] => none
  | c :: rest =>
    if ("filename=".toList).isPrefixOf (c :: rest) then
      match captureFilename ((c :: rest).drop 9) with
      | some body => some body
      | none => searchFilename rest
    else searchFilename rest

/-- `_get_filename_from_headers(headers)`: run the filename regex over the
Content-Disposition value, an absent header standing in as `''`. -/
def _get_filename_from_headers (headers : Headers) : Option String :=
  let cd := headers.contentDisposition.getD ""
  (searchFilename cd.toList).map (fun cs => String.mk cs)

/-- Everything strictly before the first occurrence of `ch`. -/
def takeUntilChar (ch : Char) (cs : List Char) : List Char :=
  cs.takeWhile (fun c => c ≠ ch)

/-- The remainder after a `://`-style scheme marker (a colon immediately
followed by two slashes), when one occurs. -/
def afterSchemeMarker : List Char → Option (List Char)
  | [] => none
  | c :: rest =>
    if c = ':' ∧ rest.take 2 = ['/', '/'] then some (rest.drop 2)
    else afterSchemeMarker rest

/-- `urllib.parse.urlparse(url).path` for the urls the client handles:
the fragment is cut at the first `#` and the query at the first `?`; when
a `scheme://netloc` head is present it is dropped, the netloc running up
to the first `/` (so the path keeps its leading slash, or is empty). -/
def urlparse_path (url : String) : String :=
  let cs := takeUntilChar '#' url.toList
  let cs := takeUntilChar '?' cs
  match afterSchemeMarker cs with
  | some rest => String.mk (rest.dropWhile (fun c => c ≠ '/'))
  | none => String.mk cs

/-- The suffix of `path` after its last `/` — `path[path.rfind('/') + 1:]`
(the whole string when there is no slash, since `rfind` yields -1). -/
def afterLastSlash (cs : List Char) : List Char :=
  (cs.reverse.takeWhile (fun c => c ≠ '/')).reverse

/-- `_get_filename_from_url(url)`: the trailing path segment of the url,
with `name or None` turning an empty segment into `None`. -/
def _get_filename_from_url (url : String) : Option String :=
  let path := urlparse_path url
  let name := afterLastSlash path.toList
  if name = [] then none else some (String.mk name)

/-- `_get_filename_from_response(response)`: the Content-Disposition name
`or` the url name.  The header extraction yields either `None` or a
non-empty capture, so Python's `or` is exactly `Option` choice here. -/
def _get_filename_from_response (r : HttpResponse) : Option String :=
  (_get_filename_from_headers r.headers).orElse
    (fun _ => _get_filename_from_url r.url)

/-- Result of `Response.length`: `valueError` embeds a `ValueError`
escaping `int(...)` uncaught — the `try` block handles `KeyError` only. -/
inductive LengthResult where
  | ok (length : Option Int)
  | valueError
  deriving DecidableEq, Repr

/-- Numeric value of a decimal digit character. -/
def digitVal (c : Char) : Nat := c.toNat - 48

/-- Digits of a Python int literal after its first digit: further digits,
possibly separated by single underscores. -/
def pyDigitsAux : List Char → Nat → Option Nat
  | [], acc => some acc
  | '_' :: c :: rest, acc =>
    if c.isDigit then pyDigitsAux rest (acc * 10 + digitVal c) else none
  | ['_'], _ => none
  | c :: rest, acc =>
    if c.isDigit then pyDigitsAux rest (acc * 10 + digitVal c) else none

/-- A non-empty decimal digit run, underscore separators allowed between
digits. -/
def pyDigits : List Char → Option Nat
  | [] => none
  | c :: rest => if c.isDigit then pyDigitsAux rest (digitVal c) else none

/-- `int(s)` on a string: surrounding whitespace, an optional sign, then
a non-empty decimal digit run; anything else raises `ValueError`,
embedded as `none`. -/
def pyInt (s : String) : Option Int :=
  let cs := s.toList.dropWhile Char.isWhitespace
  let cs := (cs.reverse.dropWhile Char.isWhitespace).reverse
  match cs with
  | '+' :: rest => (pyDigits rest).map (fun n => (n : Int))
  | '-' :: rest => (pyDigits rest).map (fun n => -(n : Int))
  | rest => (pyDigits rest).map (fun n => (n : Int))

/-- `Response.length`: `int(self._http_response.headers["Content-Length"])`
with only the `KeyError` of a missing header handled (giving `None`). -/
def Response.length (r : Response) : LengthResult :=
  match r.http_response.headers.contentLength with
  | none => .ok none
  | some v =>
    match pyInt v with
    | some n => .ok (some n)
    | none => .valueError

/-- `Response.filename`: resolve a name only when `self.length` is not
`None`; an exception escaping `self.length` propagates. -/
def Response.filename (r : Response) : Except Unit (Option String) :=
  match Response.length r with
  | .valueError => .error ()
  | .ok none => .ok none
  | .ok (some _) => .ok (_get_filename_from_response r.http_response)

/-- The Content-Disposition value of the spec's download example. -/
def attachmentCd : String := "attachment; filename=\"open_california.tif\""

/-- tiff download headers with a chosen Content-Disposition and
Content-Length, as in the spec's examples. -/
def exampleHeaders (cd : Option String) (cl : Option String) : Headers :=
  { contentDisposition := cd,
    contentLength := cl,
    contentType := some "image/tiff" }

/-- A download reply with the given headers and url. -/
def exampleReply (cd : Option String) (cl : Option String)
    (url : String) : HttpResponse :=
  { headers := exampleHeaders cd cl, url := url }

/-- C6: on the claim's three examples, `models.py` filename resolution
gives the header name, then the url name — but in the third case, with no
header name and no trailing path segment, it yields `None`: the code
consults only two sources and has no random-name fallback, although its
own docstring and the spec promise one. -/
theorem filename_resolution_two_sources_only :
    _get_filename_from_response
        (exampleReply (some attachmentCd) (some "57350256")
          "https://x/path/to/example.tif?x=1") =
      some "open_california.tif" ∧
    _get_filename_from_response
        (exampleReply none (some "57350256")
          "https://x/path/to/example.tif?x=1") =
      some "example.tif" ∧
    _get_filename_from_response
        (exampleReply none (some "57350256") "https://x/") =
      none := by
  refine ⟨by decide, by decide, by decide⟩

/-- C9: `Response.filename` is `None` whenever the Content-Length header
is absent, whatever Content-Disposition or url the response carries; and
a non-`None` filename forces a present Content-Length header together
with a name extracted from header or url. -/
theorem filename_none_without_content_length (r r2 : Response) (n : String)
    (h : r.http_response.headers.contentLength = none)
    (h2 : Response.filename r2 = .ok (some n)) :
    Response.filename r = .ok none ∧
      r2.http_response.headers.contentLength ≠ none ∧
      _get_filename_from_response r2.http_response = some n := by
  refine ⟨by simp [Response.filename, Response.length, h], ?_, ?_⟩
  · intro hc
    simp [Response.filename, Response.length, hc] at h2
  · unfold Response.filename at h2
    rcases hl : Response.length r2 with ⟨_ | m⟩ | _ <;> rw [hl] at h2
    · simp at h2
    · exact Except.ok.inj h2
    · simp at h2

/-- Witness for C9: the same downloadable reply with and without its
Content-Length header. -/
theorem filename_none_without_content_length_witness :
    Response.filename
        { http_response := exampleReply (some attachmentCd) none
            "https://x/path/to/example.tif?x=1" } =
      .ok none ∧
    (exampleReply (some attachmentCd) (some "57350256")
        "https://x/path/to/example.tif?x=1").headers.contentLength ≠
      none ∧
    _get_filename_from_response
        (exampleReply (some attachmentCd) (some "57350256")
          "https://x/path/to/example.tif?x=1") =
      some "open_california.tif" := by
  exact filename_none_without_content_length
    { http_response := exampleReply (some attachmentCd) none
        "https://x/path/to/example.tif?x=1" }
    { http_response := exampleReply (some attachmentCd) (some "57350256")
        "https://x/path/to/example.tif?x=1" }
    "open_california.tif" rfl rfl

/-- C10: `Response.length` is `None` exactly in the missing-header case,
the parsed integer when the header value is a decimal integer string, and
an uncaught `ValueError` when the header is present but not parseable. -/
theorem length_total_only_if_parseable (r1 r2 r3 : Response)
    (s2 s3 : String) (n2 : Int)
    (h1 : r1.http_response.headers.contentLength = none)
    (h2 : r2.http_response.headers.contentLength = some s2)
    (hp2 : pyInt s2 = some n2)
    (h3 : r3.http_response.headers.contentLength = some s3)
    (hp3 : pyInt s3 = none) :
    Response.length r1 = .ok none ∧ Response.length r2 = .ok (some n2) ∧
      Response.length r3 = .valueError := by
  refine ⟨?_, ?_, ?_⟩ <;> simp [Response.length, h1, h2, h3, hp2, hp3]

/-- Witness for C10: absent header, the numeric `"57350256"`, and the
non-numeric `"in bytes"`. -/
theorem length_total_only_if_parseable_witness :
    Response.length { http_response := exampleReply none none "u" } =
      .ok none ∧
    Response.length
        { http_response := exampleReply none (some "57350256") "u" } =
      .ok (some 57350256) ∧
    Response.length
        { http_response := exampleReply none (some "in bytes") "u" } =
      .valueError := by
  exact length_total_only_if_parseable
    { http_response := exampleReply none none "u" }
    { http_response := exampleReply none (some "57350256") "u" }
    { http_response := exampleReply none (some "in bytes") "u" }
    "57350256" "in bytes" 57350256 rfl rfl (by decide) rfl (by decide)

/-- Modelled from the spec: `Session._calculate_wait` of the absent
`planet/http.py` module — the delay for retry attempt `num_tries`
(1-indexed) is a random jitter from `[0, 1)` added to `2 ** num_tries`
seconds, clamped to the configured ceiling; the jitter is passed
explicitly here so the computation is a function. -/
def _calculate_wait (num_tries : Nat) (jitter : ℚ)
    (max_retry_backoff : ℚ) : ℚ :=
  min ((2 : ℚ) ^ num_tries + jitter) max_retry_backoff

/-- The spec's retry ceiling: retries stop after 5 attempts. -/
def MAX_RETRIES : Nat := 5

/-- Modelled from the spec: the retry loop of the absent `planet/http.py`
module, driven by the outcome `f k` of the k-th attempt (1-indexed) with
`remaining` further attempts allowed after the current one: it stops at
the first success, and once no attempt remains the last error propagates.
Returns the outcome together with the number of attempts made. -/
def retryGo {E A : Type} (f : Nat → Except E A) (attempt : Nat) :
    Nat → Except E A × Nat
  | 0 => (f attempt, attempt)
  | Nat.succ remaining =>
    match f attempt with
    | .ok a => (.ok a, attempt)
    | .error _ => retryGo f (attempt + 1) remaining

/-- Modelled from the spec: run the retry loop from attempt 1, with
`MAX_RETRIES` attempts in total. -/
def retry {E A : Type} (f : Nat → Except E A) : Except E A × Nat :=
  retryGo f 1 (MAX_RETRIES - 1)

/-- On a persistently failing function, the loop uses every attempt and
reports the error after attempt `attempt + remaining`. -/
theorem retryGo_persistent_error {E A : Type} (f : Nat → Except E A)
    (e : E) (hf : ∀ k, f k = .error e) :
    ∀ (remaining attempt : Nat),
      retryGo f attempt remaining = (.error e, attempt + remaining)
  | 0, attempt => by simp [retryGo, hf]
  | Nat.succ remaining, attempt => by
    rw [retryGo, hf]
    rw [retryGo_persistent_error f e hf remaining (attempt + 1)]
    have : attempt + 1 + remaining = attempt + (remaining + 1) := by omega
    rw [this]

/-- C4: for every attempt `n` from 1 to 5, the computed backoff delay is
the clamp to the ceiling `c` of the value `2 ^ n + j`, which lies in the
half-open interval `[2 ^ n, 2 ^ n + 1)`; and on a persistently failing
retryable error the loop makes exactly 5 attempts before propagating the
error. -/
theorem backoff_interval_and_five_attempts {E A : Type} (n : Nat)
    (h1 : 1 ≤ n) (h5 : n ≤ 5) (j c : ℚ) (hj0 : 0 ≤ j) (hj1 : j < 1)
    (f : Nat → Except E A) (e : E) (hf : ∀ k, f k = .error e) :
    (_calculate_wait n j c = min ((2 : ℚ) ^ n + j) c ∧
        (2 : ℚ) ^ n ≤ (2 : ℚ) ^ n + j ∧
        (2 : ℚ) ^ n + j < (2 : ℚ) ^ n + 1) ∧
      retry f = (.error e, 5) := by
  refine ⟨⟨rfl, by linarith, by linarith⟩, ?_⟩
  rw [retry, retryGo_persistent_error f e hf]
  rfl

/-- Witness for C4: attempt 3, jitter one half, ceiling 20, and a
function failing on every attempt. -/
theorem backoff_interval_and_five_attempts_witness :
    (_calculate_wait 3 (1 / 2) 20 =
          min ((2 : ℚ) ^ 3 + 1 / 2) 20 ∧
        (2 : ℚ) ^ 3 ≤ (2 : ℚ) ^ 3 + 1 / 2 ∧
        (2 : ℚ) ^ 3 + 1 / 2 < (2 : ℚ) ^ 3 + 1) ∧
      retry (fun _ => Except.error (0 : Nat) (α := Unit)) =
        (.error 0, 5) := by
  exact backoff_interval_and_five_attempts 3 (by norm_num) (by norm_num)
    (1 / 2) 20 (by norm_num) (by norm_num) _ 0 (fun _ => rfl)

/-- The error kinds of the specification's taxonomy. -/
inductive ErrorKind where
  | badRequest
  | authForbidden
  | notFoundConflict
  | rateLimited
  | serverError
  | genericAPI
  deriving DecidableEq, Repr

/-- Modelled from the spec: the status-code classification of
`BaseSession._raise_for_status` in the absent `planet/http.py` module —
2xx is success (`none`); 400, 401/403, 404/409, 429 and 5xx map to their
kinds, and any other non-2xx status to the generic API error. -/
def _raise_for_status (status : Nat) : Option ErrorKind :=
  if 200 ≤ status ∧ status < 300 then none
  else if status = 400 then some .badRequest
  else if status = 401 ∨ status = 403 then some .authForbidden
  else if status = 404 ∨ status = 409 then some .notFoundConflict
  else if status = 429 then some .rateLimited
  else if 500 ≤ status ∧ status < 600 then some .serverError
  else some .genericAPI

/-- Modelled from the spec: the error kinds the retry loop recovers —
only the rate-limited and server-error kinds. -/
def retryableKind : ErrorKind → Bool
  | .rateLimited => true
  | .serverError => true
  | _ => false

/-- C5: statuses 401 and 403 both classify to the forbidden/auth kind,
which is distinct from the generic API kind and is never retried. -/
theorem forbidden_distinct_and_not_retried :
    _raise_for_status 401 = some .authForbidden ∧
      _raise_for_status 403 = some .authForbidden ∧
      ErrorKind.authForbidden ≠ ErrorKind.genericAPI ∧
      retryableKind .authForbidden = false := by
  decide

end Planet
